import Mathlib

/-!
Verification of the ink-canvas stream adapter layer.

The definitions below are a shallow embedding of `src/utils/streams.ts`
(TerminalWritableStream and TerminalReadableStream), of the resize wiring in
`src/components/InkCanvas.tsx`, and of `src/shims/process.ts`.  Strings are
Lean `String`s, JavaScript numbers that hold terminal coordinates are `Nat`,
the clear-line direction is `Option Int` (with `none` standing for an omitted
or undefined argument), and event emission is made explicit by returning the
list of emitted signals.
-/

namespace InkCanvas

/-- Model of the xterm.js Terminal widget as seen by the adapter layer.
`cols` and `rows` mirror the readable `term.cols` / `term.rows` properties.
`received` is the log of every string the adapter passes to `term.write`,
oldest first.  Modelled from the spec: the widget itself is an external
dependency; after `dispose` the spec states that writes are swallowed and
treated as a successful no-op, so `Terminal.write` on a disposed widget
leaves the widget unchanged and never fails. -/
structure Terminal where
  cols : Nat
  rows : Nat
  disposed : Bool
  received : List String
  deriving DecidableEq, Repr

/-- The `term.write(text)` primitive of the widget: records the forwarded
text unless the widget has been disposed (see the `Terminal` doc comment). -/
def Terminal.write (t : Terminal) (text : String) : Terminal :=
  if t.disposed then t else { t with received := t.received ++ [text] }

/-- One step of the newline-normalization pass of
`TerminalWritableStream.write`, which the source implements as
`str.replace(/(?<!\r)\n/g, "\r\n")`: a JavaScript global regex replace scans
the original string left to right, so the lookbehind inspects the character
of the original input just before each match.  `prev` is that original
preceding character (`none` at the start of the string). -/
def normAux (prev : Option Char) : List Char → List Char
  | [] => []
  | c :: rest =>
    if c = '\n' ∧ prev ≠ some '\r' then
      '\r' :: '\n' :: normAux (some c) rest
    else
      c :: normAux (some c) rest

/-- The newline normalization applied by `TerminalWritableStream.write`
before forwarding a chunk to the widget. -/
def normalizeNewlines (s : String) : String :=
  String.mk (normAux none s.data)

/-- Statement of the normalization taken from the words of the spec: pair
every character of the input with the character that immediately precedes it
in the input (`none` for the first character); a line feed whose predecessor
is not a carriage return becomes carriage return followed by line feed, and
every other character (including a line feed already preceded by a carriage
return) is kept unchanged. -/
def specNormalizeChars (l : List Char) : List Char :=
  (((none :: l.map some).zip l).map fun pc =>
    if pc.2 = '\n' ∧ pc.1 ≠ some '\r' then ['\r', '\n'] else [pc.2]).flatten

theorem normAux_eq_specChars (l : List Char) :
    ∀ prev, normAux prev l =
      (((prev :: l.map some).zip l).map fun pc =>
        if pc.2 = '\n' ∧ pc.1 ≠ some '\r' then ['\r', '\n'] else [pc.2]).flatten := by
  induction l with
  | nil => intro prev; simp [normAux]
  | cons c rest ih =>
    intro prev
    simp only [normAux, List.map, List.zip_cons_cons, List.flatten, ih (some c)]
    split
    · simp_all [List.zip]
    · simp_all [List.zip]

theorem normalizeNewlines_eq_spec (s : String) :
    normalizeNewlines s = String.mk (specNormalizeChars s.data) := by
  simp [normalizeNewlines, specNormalizeChars, normAux_eq_specChars]

/-- State of `TerminalWritableStream`: the fields Ink reads.  The constructor
initializes `columns` / `rows` from the live widget size and the flags to
`true`; nothing in the source ever mutates `isTTY` or `writable`. -/
structure TerminalWritableStream where
  isTTY : Bool
  columns : Nat
  rows : Nat
  writable : Bool
  deriving DecidableEq, Repr

/-- The `TerminalWritableStream` constructor: `isTTY = true`,
`writable = true`, and dimensions copied from the widget. -/
def mkWritableStream (t : Terminal) : TerminalWritableStream :=
  { isTTY := true, columns := t.cols, rows := t.rows, writable := true }

/-- `TerminalWritableStream.write`: normalizes newlines in the chunk,
forwards the result to `term.write`, and returns `true`.  The stream state
itself is returned unchanged because the method mutates no field. -/
def writeStream (t : Terminal) (s : TerminalWritableStream) (chunk : String) :
    Terminal × TerminalWritableStream × Bool :=
  (t.write (normalizeNewlines chunk), s, true)

/-- The default `toString` rendering of a `Uint8Array` per the ECMAScript
standard (`%TypedArray%.prototype.toString` is `Array.prototype.toString`,
which joins the decimal renderings of the elements with commas).  Elements of
a `Uint8Array` are stored modulo 256. -/
def uint8ArrayToString (bytes : List Nat) : String :=
  String.intercalate "," (bytes.map fun b => Nat.repr (b % 256))

/-- The `Uint8Array` branch of `TerminalWritableStream.write`: the source
runs `chunk.toString()` on a non-string chunk and then applies the same
newline normalization before forwarding. -/
def writeStreamBytes (t : Terminal) (s : TerminalWritableStream)
    (bytes : List Nat) : Terminal × TerminalWritableStream × Bool :=
  (t.write (normalizeNewlines (uint8ArrayToString bytes)), s, true)

/-- Model of `TerminalWritableStream.end(chunk?, callback?)`.  The source is
`if (chunk) { this.write(chunk, callback); } return this;` — JavaScript
truthiness makes an omitted chunk (`none`) and the empty string skip the
write.  No field of the stream is modified. -/
def endStream (t : Terminal) (s : TerminalWritableStream)
    (chunk : Option String) : Terminal × TerminalWritableStream :=
  match chunk with
  | some c => if c = "" then (t, s) else ((writeStream t s c).1, s)
  | none => (t, s)

/-- Model of `TerminalWritableStream.clearLine(dir)`: `dir === -1` writes
CSI 1K, `dir === 1` writes CSI 0K, anything else (including an omitted
argument, `none`) writes CSI 2K. -/
def clearLine (t : Terminal) (s : TerminalWritableStream) (dir : Option Int) :
    Terminal × TerminalWritableStream × Bool :=
  if dir = some (-1) then (t.write "\x1b[1K", s, true)
  else if dir = some 1 then (t.write "\x1b[0K", s, true)
  else (t.write "\x1b[2K", s, true)

/-- Model of `TerminalWritableStream.clearScreenDown`: writes CSI J. -/
def clearScreenDown (t : Terminal) (s : TerminalWritableStream) :
    Terminal × TerminalWritableStream × Bool :=
  (t.write "\x1b[J", s, true)

/-- Model of `TerminalWritableStream.cursorTo(x, y?)` with 0-indexed
coordinates: with `y` present it writes CSI (y+1);(x+1)H, without `y` it
writes CSI (x+1)G, mirroring the template literals of the source. -/
def cursorTo (t : Terminal) (s : TerminalWritableStream) (x : Nat)
    (y : Option Nat) : Terminal × TerminalWritableStream × Bool :=
  match y with
  | some yv =>
    (t.write ("\x1b[" ++ toString (yv + 1) ++ ";" ++ toString (x + 1) ++ "H"),
      s, true)
  | none => (t.write ("\x1b[" ++ toString (x + 1) ++ "G"), s, true)

/-- A signal emitted by the adapter layer during resize handling.
`Sig.resize` is the payload-free `this.emit("resize")` of
`TerminalWritableStream.updateDimensions`; `Sig.onResizeCb` is the
`onResize` prop callback of `InkCanvas`, which receives the
`ITerminalDimensions` payload of the widget resize event. -/
inductive Sig where
  | resize : Sig
  | onResizeCb (cols rows : Nat) : Sig
  deriving DecidableEq, Repr

/-- Model of `TerminalWritableStream.updateDimensions`: copies `term.cols`
and `term.rows` into the stream fields, then emits one payload-free
`resize` event. -/
def updateDimensions (t : Terminal) (s : TerminalWritableStream) :
    TerminalWritableStream × List Sig :=
  ({ s with columns := t.cols, rows := t.rows }, [Sig.resize])

/-- Model of the `terminal.onResize` handler wired by `InkCanvas`:
`stdoutRef.current?.updateDimensions(); stderrRef.current?.updateDimensions();
onResize?.(dims);` — the emitted signals appear in execution order. -/
def handleResize (t : Terminal) (out err : TerminalWritableStream) :
    TerminalWritableStream × TerminalWritableStream × List Sig :=
  let o := updateDimensions t out
  let e := updateDimensions t err
  (o.1, e.1, o.2 ++ e.2 ++ [Sig.onResizeCb t.cols t.rows])

/-- Recognizes the payload-free stream `resize` signal. -/
def isResizeSig : Sig → Bool
  | Sig.resize => true
  | Sig.onResizeCb _ _ => false

/-- State of `TerminalReadableStream`: the FIFO buffer of input chunks plus
the constant fields Ink probes.  Nothing in the source ever mutates `isTTY`,
`readable` or `fd`; `isRaw` is only written by `setRawMode`. -/
structure TerminalReadableStream where
  isTTY : Bool
  isRaw : Bool
  readable : Bool
  fd : Nat
  buffer : List String
  deriving DecidableEq, Repr

/-- The `TerminalReadableStream` constructor state: all flags `true`,
`fd = 0`, empty buffer. -/
def mkReadableStream : TerminalReadableStream :=
  { isTTY := true, isRaw := true, readable := true, fd := 0, buffer := [] }

/-- A signal emitted by the readable stream. -/
inductive RSig where
  | readableEvt : RSig
  deriving DecidableEq, Repr

/-- The `term.onData` handler installed by the `TerminalReadableStream`
constructor: pushes the payload onto the tail of the buffer and emits one
`readable` event. -/
def onData (s : TerminalReadableStream) (d : String) :
    TerminalReadableStream × List RSig :=
  ({ s with buffer := s.buffer ++ [d] }, [RSig.readableEvt])

/-- Delivers a sequence of widget data events, oldest first. -/
def deliver (s : TerminalReadableStream) (ds : List String) :
    TerminalReadableStream :=
  ds.foldl (fun st d => (onData st d).1) s

/-- Model of `TerminalReadableStream.read`: returns `null` on an empty
buffer, else removes and returns the oldest chunk (`buffer.shift()`).  The
advisory `size` argument of the source is ignored by the source itself. -/
def readStream (s : TerminalReadableStream) :
    Option String × TerminalReadableStream :=
  match s.buffer with
  | [] => (none, s)
  | x :: rest => (some x, { s with buffer := rest })

/-- The results of `n` successive `read()` calls, in call order. -/
def readsStream : TerminalReadableStream → Nat → List (Option String)
  | _, 0 => []
  | s, n + 1 =>
    let r := readStream s
    r.1 :: readsStream r.2 n

/-- Model of `TerminalReadableStream.setRawMode`: records the flag and
returns the stream for chaining. -/
def setRawMode (s : TerminalReadableStream) (mode : Bool) :
    TerminalReadableStream :=
  { s with isRaw := mode }

/-- The two writable stream endpoints wired into the resize handler of
`InkCanvas` (stdout and stderr; both wrap the same widget). -/
inductive EP where
  | out : EP
  | err : EP
  deriving DecidableEq, Repr

/-- A primitive operation of the resize handler, at the granularity needed
to talk about ordering: a dimension-field update of one endpoint, the
synchronous `emit("resize")` of one endpoint (EventEmitter listeners run
inside the emit call), or the `onResize` prop callback. -/
inductive ROp where
  | setDims (e : EP) (cols rows : Nat) : ROp
  | emitResize (e : EP) : ROp
  | callCb (cols rows : Nat) : ROp
  deriving DecidableEq, Repr

/-- The operation trace of `TerminalWritableStream.updateDimensions` for one
endpoint: assign `columns` and `rows`, then emit the resize event. -/
def updateDimensionsTrace (e : EP) (c r : Nat) : List ROp :=
  [ROp.setDims e c r, ROp.emitResize e]

/-- The operation trace of the `terminal.onResize` handler of `InkCanvas`
when the widget reports new dimensions `c` × `r`: stdout is updated and
emits, then stderr is updated and emits, then the prop callback runs. -/
def resizeTrace (c r : Nat) : List ROp :=
  updateDimensionsTrace EP.out c r ++ updateDimensionsTrace EP.err c r ++
    [ROp.callCb c r]

/-- Whether a dimension update of endpoint `e` occurs in the list. -/
def hasSetDims (e : EP) (l : List ROp) : Bool :=
  l.any fun o =>
    match o with
    | ROp.setDims e2 _ _ => e2 = e
    | _ => false

/-- Checks, scanning the trace left to right with `seen` the operations
already executed, that at every resize emission both endpoints have already
had their dimension fields updated. -/
def bothUpdatedBeforeEmits (seen : List ROp) : List ROp → Bool
  | [] => true
  | op :: rest =>
    (match op with
     | ROp.emitResize _ => hasSetDims EP.out seen && hasSetDims EP.err seen
     | _ => true) && bothUpdatedBeforeEmits (seen ++ [op]) rest

/-- Checks that at every resize emission the emitting endpoint itself has
already had its dimension fields updated. -/
def ownUpdatedBeforeEmits (seen : List ROp) : List ROp → Bool
  | [] => true
  | op :: rest =>
    (match op with
     | ROp.emitResize e => hasSetDims e seen
     | _ => true) && ownUpdatedBeforeEmits (seen ++ [op]) rest

/-- An operation of the process shim (`src/shims/process.ts`) that the
consumer framework may invoke. -/
inductive ShimOp where
  | cwdOp : ShimOp
  | exitOp (code : Option Int) : ShimOp
  | nextTickOp : ShimOp
  | onOp : ShimOp
  | offOp : ShimOp
  | onceOp : ShimOp
  | stdoutWriteOp (chunk : String) : ShimOp
  | stderrWriteOp (chunk : String) : ShimOp
  | stdinSetRawModeOp : ShimOp
  | stdinResumeOp : ShimOp
  | stdinPauseOp : ShimOp
  deriving DecidableEq, Repr

/-- The value an operation of the shim returns when it does not throw. -/
inductive ShimResult where
  | strVal (s : String) : ShimResult
  | boolVal (b : Bool) : ShimResult
  | unitVal : ShimResult
  deriving DecidableEq, Repr

/-- The message of the error thrown by the exit primitive:
`process.exit(${code}) called`, where an omitted argument interpolates as
`undefined` and a number interpolates in decimal. -/
def exitMessage (code : Option Int) : String :=
  "process.exit(" ++
    (match code with
     | some c => toString c
     | none => "undefined") ++ ") called"

/-- Runs one shim operation, mirroring `src/shims/process.ts`: `cwd` returns
the constant root path, `exit` always throws, `nextTick` schedules and
returns, the event functions and the stdin methods are no-ops, and the mock
`stdout.write` / `stderr.write` return `true`.  A thrown error is modelled
as `Except.error` carrying the message. -/
def runShimOp : ShimOp → Except String ShimResult
  | ShimOp.cwdOp => Except.ok (ShimResult.strVal "/")
  | ShimOp.exitOp code => Except.error (exitMessage code)
  | ShimOp.nextTickOp => Except.ok ShimResult.unitVal
  | ShimOp.onOp => Except.ok ShimResult.unitVal
  | ShimOp.offOp => Except.ok ShimResult.unitVal
  | ShimOp.onceOp => Except.ok ShimResult.unitVal
  | ShimOp.stdoutWriteOp _ => Except.ok (ShimResult.boolVal true)
  | ShimOp.stderrWriteOp _ => Except.ok (ShimResult.boolVal true)
  | ShimOp.stdinSetRawModeOp => Except.ok ShimResult.unitVal
  | ShimOp.stdinResumeOp => Except.ok ShimResult.unitVal
  | ShimOp.stdinPauseOp => Except.ok ShimResult.unitVal

/-- Whether a shim operation surfaces a failure (throws). -/
def shimFails (op : ShimOp) : Bool :=
  match runShimOp op with
  | Except.error _ => true
  | Except.ok _ => false

/-- A live (not disposed) widget showing the initial 80 × 24 grid with an
empty write log. -/
def term80 : Terminal := ⟨80, 24, false, []⟩

/-- A writable stream endpoint freshly constructed over `term80`. -/
def stream0 : TerminalWritableStream := mkWritableStream term80

theorem deliver_buffer (ds : List String) :
    ∀ s : TerminalReadableStream, (deliver s ds).buffer = s.buffer ++ ds := by
  induction ds with
  | nil => intro s; simp [deliver]
  | cons d rest ih =>
    intro s
    show (deliver { s with buffer := s.buffer ++ [d] } rest).buffer = _
    rw [ih]
    simp

theorem readsStream_spec (l : List String) :
    ∀ s : TerminalReadableStream, s.buffer = l →
      readsStream s (l.length + 1) = l.map some ++ [none] := by
  induction l with
  | nil =>
    intro s h
    simp [readsStream, readStream, h]
  | cons x rest ih =>
    intro s h
    have h1 : readStream s = (some x, { s with buffer := rest }) := by
      simp [readStream, h]
    simp only [readsStream, h1, List.length_cons, List.map_cons, List.cons_append]
    exact congrArg _ (ih _ rfl)

/-- C1: for every input string, the string forwarded to the terminal widget
is the input with every line feed not immediately preceded by a carriage
return replaced by carriage return + line feed, and every line feed already
preceded by a carriage return left unchanged (`specNormalizeChars` is that
spec-worded transform); the call returns `true`.  The final conjunct is the
worked example of the spec. -/
theorem write_normalizes_newlines :
    (∀ (c r : Nat) (log : List String) (s : TerminalWritableStream)
        (chunk : String),
      (writeStream ⟨c, r, false, log⟩ s chunk).1.received
          = log ++ [String.mk (specNormalizeChars chunk.data)] ∧
        (writeStream ⟨c, r, false, log⟩ s chunk).2.2 = true) ∧
      normalizeNewlines "a\nb\r\nc" = "a\r\nb\r\nc" := by
  refine ⟨fun c r log s chunk => ⟨?_, rfl⟩, by decide⟩
  simp [writeStream, Terminal.write, normalizeNewlines_eq_spec]

/-- C2: after any sequence of widget data events delivered before any read,
calling `read()` once per event returns exactly those chunks in arrival
order, and the next call returns `null`; the queue is never reordered or
merged. -/
theorem read_fifo_in_order (events : List String) :
    readsStream (deliver mkReadableStream events) (events.length + 1)
      = events.map some ++ [none] := by
  have hb : (deliver mkReadableStream events).buffer = events := by
    rw [deliver_buffer]
    simp [mkReadableStream]
  exact readsStream_spec events _ hb

/-- C5: the cursor and erase operations emit exactly their documented escape
sequences: `cursorTo(x, y)` writes CSI (y+1);(x+1)H and `cursorTo(x)` writes
CSI (x+1)G for all 0-indexed coordinates, with the concrete instances of the
spec, and `clearLine` writes CSI 1K / 0K / 2K for directions −1 / 1 / 0 (or
omitted). -/
theorem cursor_erase_encodings :
    (∀ (c r : Nat) (log : List String) (s : TerminalWritableStream)
        (x y : Nat),
      (cursorTo ⟨c, r, false, log⟩ s x (some y)).1.received
          = log ++ ["\x1b[" ++ toString (y + 1) ++ ";" ++ toString (x + 1) ++ "H"] ∧
        (cursorTo ⟨c, r, false, log⟩ s x none).1.received
          = log ++ ["\x1b[" ++ toString (x + 1) ++ "G"]) ∧
      (cursorTo term80 stream0 3 (some 5)).1.received = ["\x1b[6;4H"] ∧
      (cursorTo term80 stream0 3 none).1.received = ["\x1b[4G"] ∧
      (∀ (c r : Nat) (log : List String) (s : TerminalWritableStream),
        (clearLine ⟨c, r, false, log⟩ s (some (-1))).1.received
            = log ++ ["\x1b[1K"] ∧
          (clearLine ⟨c, r, false, log⟩ s (some 1)).1.received
            = log ++ ["\x1b[0K"] ∧
          (clearLine ⟨c, r, false, log⟩ s (some 0)).1.received
            = log ++ ["\x1b[2K"] ∧
          (clearLine ⟨c, r, false, log⟩ s none).1.received
            = log ++ ["\x1b[2K"]) := by
  refine ⟨fun c r log s x y => ⟨?_, ?_⟩, by decide, by decide,
    fun c r log s => ⟨?_, ?_, ?_, ?_⟩⟩ <;>
    simp [cursorTo, clearLine, Terminal.write]

/-- C8: calling `updateDimensions` twice against the same widget size leaves
the stream state unchanged the second time (idempotent on state), and each
invocation emits exactly one resize signal, including when the new
dimensions already equal the cached ones (last conjunct) — emission is not
deduplicated. -/
theorem updateDimensions_idempotent_unconditional_emit :
    ∀ (t : Terminal) (s : TerminalWritableStream),
      (updateDimensions t (updateDimensions t s).1).1
          = (updateDimensions t s).1 ∧
        (updateDimensions t s).2 = [Sig.resize] ∧
        (updateDimensions t (updateDimensions t s).1).2 = [Sig.resize] ∧
        (updateDimensions t
            { s with columns := t.cols, rows := t.rows }).2 = [Sig.resize] :=
  fun _ _ => ⟨rfl, rfl, rfl, rfl⟩

/-- C10: a `Uint8Array` chunk is forwarded as the default `toString`
rendering of the array — the comma-separated decimal byte values, with the
newline normalization then applied to that text — not as a UTF-8 decoding of
the bytes: the single byte 10 is forwarded as the two characters `10`, not
as a line break. -/
theorem write_uint8array_toString :
    (∀ (c r : Nat) (log : List String) (s : TerminalWritableStream)
        (bytes : List Nat),
      (writeStreamBytes ⟨c, r, false, log⟩ s bytes).1.received
          = log ++ [normalizeNewlines (uint8ArrayToString bytes)] ∧
        (writeStreamBytes ⟨c, r, false, log⟩ s bytes).2.2 = true) ∧
      (writeStreamBytes term80 stream0 [10]).1.received = ["10"] ∧
      (writeStreamBytes term80 stream0 [104, 10, 257]).1.received
        = ["104,10,1"] ∧
      ("10" : String) ≠ "\r\n" := by
  refine ⟨fun c r log s bytes => ⟨?_, rfl⟩, by decide, by decide, by decide⟩
  simp [writeStreamBytes, Terminal.write]

/-- The widget of the end-to-end resize scenario after it has been resized
to 120 × 40. -/
def term120 : Terminal := ⟨120, 40, false, []⟩

/-- The resize handler run for the scenario: both writable endpoints were
constructed over the 80 × 24 widget, which then reports 120 × 40. -/
def c3Result : TerminalWritableStream × TerminalWritableStream × List Sig :=
  handleResize term120 (mkWritableStream term80) (mkWritableStream term80)

/-- C3 counterexample: in the 80×24 → 120×40 scenario it is not the case
that exactly one resize signal fires — the handler emits one payload-free
`resize` event per writable endpoint (stdout and stderr), two in total, and
the `{cols, rows}` payload travels only on the separate `onResize` prop
callback.  The readable endpoint is not updated at all (it has no dimension
fields to update). -/
theorem resize_scenario_signal_count_cex :
    List.countP isResizeSig c3Result.2.2 = 2 ∧
      ¬ List.countP isResizeSig c3Result.2.2 = 1 := by decide

/-- C3 amended: after the widget resize from 80 × 24 to 120 × 40, the two
writable endpoints (stdout and stderr) — initially reporting 80/24 — both
report columns = 120 and rows = 40; each emits one payload-free resize
signal (two in total), and the `onResize` callback fires exactly once with
the payload 120 × 40.  The input adapter carries no dimension fields and is
not touched by the handler. -/
theorem resize_scenario_amended :
    (mkWritableStream term80).columns = 80 ∧
      (mkWritableStream term80).rows = 24 ∧
      c3Result.1.columns = 120 ∧ c3Result.1.rows = 40 ∧
      c3Result.2.1.columns = 120 ∧ c3Result.2.1.rows = 40 ∧
      c3Result.2.2 = [Sig.resize, Sig.resize, Sig.onResizeCb 120 40] := by
  decide

/-- C4 counterexample: on the 120 × 40 resize, the operation trace of the
handler emits the stdout resize signal before the stderr endpoint has had
its dimension fields updated, so it is false that both endpoints are
updated strictly before the resize signal reaches any listener
(EventEmitter listeners run synchronously inside the emit). -/
theorem both_endpoints_before_signal_cex :
    bothUpdatedBeforeEmits [] (resizeTrace 120 40) = false ∧
      ¬ bothUpdatedBeforeEmits [] (resizeTrace 120 40) = true := by decide

/-- C4 amended: on every resize transition, each writable endpoint has its
own columns/rows fields updated strictly before its own resize signal is
emitted, so a listener of a given endpoint resize signal observes that
endpoint's new dimensions; but the stdout signal fires before the stderr
fields are updated, and the input adapter has no dimension fields. -/
theorem own_endpoint_before_signal (c r : Nat) :
    ownUpdatedBeforeEmits [] (resizeTrace c r) = true := rfl

/-- C6 counterexample: a write against a disposed widget does return `true`,
but a read made after the owning widget is disposed returns the oldest
chunk still buffered — not `null` — whenever input arrived before disposal
and was not drained (`read` never consults the widget, so disposal cannot
change its result). -/
theorem read_after_dispose_cex :
    (writeStream ⟨80, 24, true, []⟩ stream0 "x").2.2 = true ∧
      (readStream { mkReadableStream with buffer := ["a"] }).1 = some "a" ∧
      (some "a" : Option String) ≠ none := by decide

/-- C6 amended: after the owning widget is disposed every subsequent write
still returns `true` and leaves the disposed widget untouched (the widget
swallows the forwarded text), and every subsequent read returns the oldest
still-buffered chunk if one exists and `null` once the queue is empty;
neither call can fail. -/
theorem post_dispose_noop :
    (∀ (c r : Nat) (log : List String) (s : TerminalWritableStream)
        (chunk : String),
      (writeStream ⟨c, r, true, log⟩ s chunk).2.2 = true ∧
        (writeStream ⟨c, r, true, log⟩ s chunk).1 = ⟨c, r, true, log⟩) ∧
      ∀ l : List String,
        (readStream { mkReadableStream with buffer := l }).1 = l.head? := by
  refine ⟨fun c r log s chunk => ⟨rfl, ?_⟩, fun l => ?_⟩
  · simp [writeStream, Terminal.write]
  · cases l <;> rfl

/-- C7 counterexample: `end("x")` performs the final write but marks nothing
closed — `writable` is still `true` afterwards — and calling it a second
time writes the chunk again, so `end` with a chunk is not idempotent. -/
theorem end_not_closing_cex :
    (endStream term80 stream0 (some "x")).2.writable = true ∧
      (endStream term80 stream0 (some "x")).1.received = ["x"] ∧
      (endStream (endStream term80 stream0 (some "x")).1
          (endStream term80 stream0 (some "x")).2 (some "x")).1.received
        = ["x", "x"] ∧
      (endStream (endStream term80 stream0 (some "x")).1
          (endStream term80 stream0 (some "x")).2 (some "x")).1
        ≠ (endStream term80 stream0 (some "x")).1 := by decide

/-- C7 amended: `end(chunk?)` performs a final write of the chunk when a
non-empty chunk is given (with the same newline normalization as `write`)
and otherwise does nothing; it leaves every stream field unchanged — in
particular it does not mark the endpoint closed, `writable` keeps its
value — and only the chunk-less form is idempotent. -/
theorem end_final_write :
    ∀ (c r : Nat) (log : List String) (s : TerminalWritableStream)
        (ch : String),
      (endStream ⟨c, r, false, log⟩ s (some ch)).2 = s ∧
        (endStream ⟨c, r, false, log⟩ s (some ch)).1.received
          = log ++ (if ch = "" then [] else [normalizeNewlines ch]) ∧
        endStream ⟨c, r, false, log⟩ s none = (⟨c, r, false, log⟩, s) := by
  intro c r log s ch
  by_cases h : ch = "" <;>
    simp [endStream, writeStream, Terminal.write, h]

/-- C9: for every exit code argument, including an omitted one, the exit
primitive of the process shim throws (models as `Except.error` with the
`process.exit(code) called` message) and never returns; and an operation of
the shim layer surfaces a failure exactly when it is an exit attempt. -/
theorem exit_always_throws_only_failure :
    (∀ code : Option Int,
      runShimOp (ShimOp.exitOp code) = Except.error (exitMessage code)) ∧
      ∀ op : ShimOp, shimFails op = true ↔ ∃ code, op = ShimOp.exitOp code := by
  refine ⟨fun code => rfl, fun op => ?_⟩
  cases op <;> simp [shimFails, runShimOp]

end InkCanvas




